import Mathlib

/-!
# Verification of the Tencent-cloud smart-advisor daily email report pipeline

Shallow embedding of the pure computational core of the repository:

* `scripts/email_daily_report.py` — importance assessment, categorisation,
  daily aggregation (`extract_key_data`), history persistence;
* `scripts/trend_analyzer.py` — volume / keyword trend analysis;
* `scripts/tencent_advisor_analyzer.py` — MIME content extraction
  (`extract_all_content`), header decoding (`decode_mime_words`) and the
  structured link extraction of `parse_html_data`.

Python strings are modelled by `String`, byte strings by `List Nat` (one
entry per byte), floats arising from integer arithmetic by `ℚ` (all the
divisions and comparisons the code performs on these values are exact in
double precision for the magnitudes involved), and functions that can raise
by `Option` (`none` = an exception propagates).
-/

/-- Python's substring test `pat in s` on lists of characters. -/
def pyInChars (pat : List Char) : List Char → Bool
  | [] => pat.isEmpty
  | c :: rest => pat.isPrefixOf (c :: rest) || pyInChars pat rest

/-- Python's substring test `pat in s` for strings. -/
def pyIn (pat s : String) : Bool := pyInChars pat.toList s.toList

/-- Python `str.lower()`; the keyword tables and test inputs are ASCII, where
`Char.toLower` agrees with Python's lowering. -/
def pyLower (s : String) : String := String.mk (s.toList.map Char.toLower)

/-! ## email_daily_report.py — parsed messages and importance -/

/-- A parsed message as produced by `EmailDailyReport.parse_email`: the fields
the aggregation pipeline reads.  `importance` is the string computed by
`assess_importance` (always one of `"high"`, `"medium"`, `"low"`). -/
structure EmailMsg where
  subject : String
  body : String
  importance : String
deriving DecidableEq, Repr

/-- Keyword table `high_importance_words` of `assess_importance`. -/
def high_importance_words : List String :=
  ["urgent", "important", "decision", "critical", "immediate", "asap",
   "budget", "strategy", "roadmap", "emergency", "high priority"]

/-- Keyword table `medium_importance_words` of `assess_importance`. -/
def medium_importance_words : List String :=
  ["update", "meeting", "review", "report", "analysis", "plan"]

/-- Model of `sum(1 for word in words if word in subject_lower or word in body_lower)`. -/
def countHits (words : List String) (subjL bodyL : String) : Nat :=
  (words.filter (fun w => pyIn w subjL || pyIn w bodyL)).length

/-- Embedding of `EmailDailyReport.assess_importance` (lines 151-169). -/
def assess_importance (subject body : String) : String :=
  let subjL := pyLower subject
  let bodyL := pyLower body
  let high_count := countHits high_importance_words subjL bodyL
  let medium_count := countHits medium_importance_words subjL bodyL
  if 2 ≤ high_count then "high"
  else if 1 ≤ high_count || 2 ≤ medium_count then "medium"
  else "low"

/-! ## email_daily_report.py — categorisation -/

/-- Keyword table `decision_keywords` of `categorize_emails`. -/
def decision_keywords : List String :=
  ["decision", "decide", "approve", "approval", "budget", "strategy", "roadmap"]

/-- Keyword table `alert_keywords` of `categorize_emails`. -/
def alert_keywords : List String :=
  ["alert", "warning", "error", "failure", "urgent", "emergency", "critical"]

/-- Keyword table `update_keywords` of `categorize_emails`. -/
def update_keywords : List String :=
  ["update", "progress", "status", "report", "summary", "review"]

/-- Model of `any(keyword in subject_lower or keyword in body_lower for kw in kws)`. -/
def anyKeyword (kws : List String) (subjL bodyL : String) : Bool :=
  kws.any (fun k => pyIn k subjL || pyIn k bodyL)

/-- The four category lists built by `categorize_emails`. -/
structure Categories where
  decisions : List EmailMsg
  updates : List EmailMsg
  alerts : List EmailMsg
  general : List EmailMsg
deriving DecidableEq, Repr

/-- Embedding of `EmailDailyReport.categorize_emails` (lines 171-201).  The loop appends
each message to the list of the first keyword group that matches (decision,
then alert, then update) and to `general` otherwise; the recursion places the
current message in front of the classification of the remaining messages,
which yields the same per-category order as the source's `append` loop. -/
def categorize_emails : List EmailMsg → Categories
  | [] => ⟨[], [], [], []⟩
  | e :: rest =>
    let c := categorize_emails rest
    let subjL := pyLower e.subject
    let bodyL := pyLower e.body
    if anyKeyword decision_keywords subjL bodyL then { c with decisions := e :: c.decisions }
    else if anyKeyword alert_keywords subjL bodyL then { c with alerts := e :: c.alerts }
    else if anyKeyword update_keywords subjL bodyL then { c with updates := e :: c.updates }
    else { c with general := e :: c.general }

/-! ## email_daily_report.py — daily aggregation (`extract_key_data`) -/

/-- The `by_importance` counter dictionary. -/
structure ByImportance where
  high : Nat
  medium : Nat
  low : Nat
deriving DecidableEq, Repr

/-- The `by_category` counter dictionary (initialised by `extract_key_data`
and — in the source — never incremented afterwards). -/
structure ByCategory where
  decisions : Nat
  updates : Nat
  alerts : Nat
  general : Nat
deriving DecidableEq, Repr

/-- An entry of `key_data['urgent_items']`. -/
structure UrgentItem where
  subject : String
  summary : String
deriving DecidableEq, Repr

/-- The daily aggregate built by `extract_key_data`.  The `key_decisions` and
`data_points` lists of the source dictionary are omitted from the model: their
computation (regex scans of the body) never reads or writes the counters the
claims are about. -/
structure KeyData where
  total_emails : Nat
  by_importance : ByImportance
  by_category : ByCategory
  urgent_items : List UrgentItem
deriving DecidableEq, Repr

/-- Model of `key_data['by_importance'][email['importance']] += 1`.  For any key other
than the three present ones Python would raise `KeyError`; `parse_email` only
ever stores the three values returned by `assess_importance`, so that case is
unreachable in the pipeline and the model leaves the counters unchanged. -/
def addImportance (bi : ByImportance) (imp : String) : ByImportance :=
  if imp = "high" then { bi with high := bi.high + 1 }
  else if imp = "medium" then { bi with medium := bi.medium + 1 }
  else if imp = "low" then { bi with low := bi.low + 1 }
  else bi

/-- Model of the urgent-item summary truncation `body[:200] + '...' if len(body) > 200 else body`. -/
def truncateSummary (body : String) : String :=
  if 200 < body.length then body.take 200 ++ "..." else body

/-- One iteration of the `for email in emails` loop of `extract_key_data`. -/
def keyDataStep (kd : KeyData) (e : EmailMsg) : KeyData :=
  let kd := { kd with by_importance := addImportance kd.by_importance e.importance }
  if e.importance = "high" then
    { kd with urgent_items := kd.urgent_items ++ [⟨e.subject, truncateSummary e.body⟩] }
  else kd

/-- Embedding of `EmailDailyReport.extract_key_data` (lines 203-231).  `total_emails` is set
to `len(emails)` up front; the loop updates `by_importance` and
`urgent_items`; no statement of the source touches `by_category` after its
initialisation to zeros. -/
def extract_key_data (emails : List EmailMsg) : KeyData :=
  emails.foldl keyDataStep
    { total_emails := emails.length
      by_importance := ⟨0, 0, 0⟩
      by_category := ⟨0, 0, 0, 0⟩
      urgent_items := [] }

/-! ## email_daily_report.py — history persistence -/

/-- Contents of `data/email_history.json` as a JSON document: absent, a single
aggregate object (what `save_history` writes), or a list of aggregates (what
`TrendAnalyzer.load_history` declares it expects). -/
inductive HistoryFile where
  | empty : HistoryFile
  | single : KeyData → HistoryFile
  | stored : List KeyData → HistoryFile
deriving DecidableEq, Repr

/-- Embedding of `EmailDailyReport.save_history` (lines 316-323): `json.dump(data, f)`
rewrites the file with the one current aggregate; the previous file contents
are not read and do not appear in the output. -/
def save_history (_prior : HistoryFile) (data : KeyData) : HistoryFile :=
  HistoryFile.single data

/-- The ordered list of daily aggregates a reader of the history file obtains
(`json.load` followed by list access, as in `TrendAnalyzer.load_history`): a
stored list yields its entries, a stored single object yields just that
aggregate, an absent file yields nothing. -/
def read_history_aggregates : HistoryFile → List KeyData
  | .empty => []
  | .single d => [d]
  | .stored l => l

/-! ## trend_analyzer.py — data model and volume trend -/

/-- One history entry as read by `TrendAnalyzer`: `day.get('total_emails', 0)`
and `day.get('keywords', [])` are the only fields the analysed claims touch. -/
structure DayData where
  total_emails : Nat
  keywords : List String
deriving DecidableEq, Repr, Inhabited

/-- Python's negative-offset slice `l[-days:]`.  For `days = 0` Python reads
`l[0:]`, i.e. the whole list, because `-0 == 0`. -/
def pyLastSlice {α : Type} (l : List α) (days : Nat) : List α :=
  if days = 0 then l else l.drop (l.length - days)

/-- The dictionary returned by `analyze_volume_trend`; the `recent_volumes`
echo field (present only on the main path and unread by every caller the
claims mention) is omitted. -/
structure VolumeTrend where
  trend : String
  change_rate : ℚ
deriving DecidableEq, Repr

/-- Embedding of `TrendAnalyzer.analyze_volume_trend` (lines 42-74).  The last two entries
of the `history[-days:]` window are read with `getD`; under the in-source
length guard both indices are in range, so the default is never consulted. -/
def analyze_volume_trend (history : List DayData) (days : Nat) : VolumeTrend :=
  if history.length < 2 then ⟨"stable", 0⟩
  else
    let recent_volumes := (pyLastSlice history days).map (·.total_emails)
    if recent_volumes.length < 2 then ⟨"stable", 0⟩
    else
      let latest : Nat := recent_volumes.getD (recent_volumes.length - 1) 0
      let previous : Nat := recent_volumes.getD (recent_volumes.length - 2) 0
      let change_rate : ℚ :=
        if 0 < previous then (((latest : ℚ) - (previous : ℚ)) / (previous : ℚ)) * 100 else 0
      let trend :=
        if |change_rate| < 5 then "stable"
        else if 20 < change_rate then "significantly_increasing"
        else if 5 < change_rate then "increasing"
        else if change_rate < -20 then "significantly_decreasing"
        else "decreasing"
      ⟨trend, change_rate⟩

/-! ## trend_analyzer.py — keyword trends -/

/-- The `for i, day_data in enumerate(history[-days:])` loop of
`analyze_keyword_trends`, accumulating `recent_keywords` and
`previous_keywords`: entry `i` of the window goes to the recent list when
`i >= days - 3` (Python integer subtraction, hence the `Int` comparison) and
to the previous list otherwise, each list extended in iteration order. -/
def splitKeywordsAux (days : Nat) : Nat → List DayData → List String × List String
  | _, [] => ([], [])
  | i, d :: rest =>
    let r := splitKeywordsAux days (i + 1) rest
    if (days : Int) - 3 ≤ (i : Int) then (d.keywords ++ r.1, r.2)
    else (r.1, d.keywords ++ r.2)

/-- The `(recent_keywords, previous_keywords)` pair computed by
`analyze_keyword_trends` before counting. -/
def recent_previous_keywords (history : List DayData) (days : Nat) :
    List String × List String :=
  splitKeywordsAux days 0 (pyLastSlice history days)

/-- Iteration order of `collections.Counter(l).items()`: keys in order of
first occurrence in `l`.  Fuel is the list length; removing the occurrences
of the head keeps the fuel sufficient for the tail. -/
def firstOccurrencesAux : Nat → List String → List String
  | 0, _ => []
  | _, [] => []
  | fuel + 1, a :: l => a :: firstOccurrencesAux fuel (l.filter (fun b => b ≠ a))

/-- Keys of `collections.Counter(l)` in iteration (first-occurrence) order. -/
def firstOccurrences (l : List String) : List String :=
  firstOccurrencesAux l.length l

/-- The emergence test of `analyze_keyword_trends` line 97:
`recent_count > previous_count * 1.5 and recent_count >= 2`. -/
def isEmerging (recent_count previous_count : Nat) : Bool :=
  decide ((previous_count : ℚ) * 1.5 < (recent_count : ℚ)) && decide (2 ≤ recent_count)

/-- The decline test of `analyze_keyword_trends` line 108:
`recent_count < previous_count * 0.5 and previous_count >= 2`. -/
def isDeclining (recent_count previous_count : Nat) : Bool :=
  decide ((recent_count : ℚ) < (previous_count : ℚ) * 0.5) && decide (2 ≤ previous_count)

/-- An entry of the list returned by `analyze_keyword_trends`. -/
structure KeywordTrend where
  keyword : String
  recent_count : Nat
  previous_count : Nat
  trend : String
deriving DecidableEq, Repr

/-- Embedding of `TrendAnalyzer.analyze_keyword_trends` (lines 76-116).  `Counter` lookups
are `List.count`; `previous_counter.get(keyword, 0)` defaults to `0` for
absent keys. -/
def analyze_keyword_trends (history : List DayData) (days : Nat) :
    List KeywordTrend :=
  if history.length < 2 then []
  else
    let rp := recent_previous_keywords history days
    let recent := rp.1
    let previous := rp.2
    let trending := (firstOccurrences recent).filterMap (fun k =>
      let rc := recent.count k
      let pc := previous.count k
      if isEmerging rc pc then some ⟨k, rc, pc, "emerging"⟩ else none)
    let declining := (firstOccurrences previous).filterMap (fun k =>
      let pc := previous.count k
      let rc := recent.count k
      if isDeclining rc pc then some ⟨k, rc, pc, "declining"⟩ else none)
    trending ++ declining

/-- The recent window exactly as the specification words it: the keyword lists
of "the last 3 entries" of the `history[-days:]` range, concatenated in order.
Stated from the spec (not the source) for comparison with
`recent_previous_keywords`. -/
def specRecentWindowKeywords (history : List DayData) (days : Nat) : List String :=
  let window := pyLastSlice history days
  ((window.drop (window.length - 3)).map (·.keywords)).flatten

/-- Four history entries, each contributing the keyword `"k"` once. -/
def hist4 : List DayData :=
  [⟨5, ["k"]⟩, ⟨6, ["k"]⟩, ⟨7, ["k"]⟩, ⟨8, ["k"]⟩]

/-! ## UTF-8 decoding (model of Python `bytes.decode('utf-8', ...)`) -/

/-- A UTF-8 continuation byte. -/
def isContByte (b : Nat) : Bool := 0x80 ≤ b && b ≤ 0xBF

/-- Decode one well-formed UTF-8 sequence at the head of the byte list,
returning the code point and the remaining bytes.  Overlong encodings,
surrogates and code points above U+10FFFF are rejected, as CPython does. -/
def utf8DecodeOne : List Nat → Option (Nat × List Nat)
  | [] => none
  | b :: rest =>
    if b ≤ 0x7F then some (b, rest)
    else if 0xC2 ≤ b && b ≤ 0xDF then
      match rest with
      | b1 :: r =>
        if isContByte b1 then some ((b - 0xC0) * 0x40 + (b1 - 0x80), r) else none
      | _ => none
    else if 0xE0 ≤ b && b ≤ 0xEF then
      match rest with
      | b1 :: b2 :: r =>
        let okB1 :=
          if b = 0xE0 then 0xA0 ≤ b1 && b1 ≤ 0xBF
          else if b = 0xED then 0x80 ≤ b1 && b1 ≤ 0x9F
          else isContByte b1
        if okB1 && isContByte b2 then
          some ((b - 0xE0) * 0x1000 + (b1 - 0x80) * 0x40 + (b2 - 0x80), r)
        else none
      | _ => none
    else if 0xF0 ≤ b && b ≤ 0xF4 then
      match rest with
      | b1 :: b2 :: b3 :: r =>
        let okB1 :=
          if b = 0xF0 then 0x90 ≤ b1 && b1 ≤ 0xBF
          else if b = 0xF4 then 0x80 ≤ b1 && b1 ≤ 0x8F
          else isContByte b1
        if okB1 && isContByte b2 && isContByte b3 then
          some ((b - 0xF0) * 0x40000 + (b1 - 0x80) * 0x1000 + (b2 - 0x80) * 0x40 + (b3 - 0x80), r)
        else none
      | _ => none
    else none

/-- Model of `bytes.decode('utf-8', errors='ignore')`: undecodable bytes are skipped,
decoding always succeeds.  Fuel is the byte count; every step consumes at
least one byte, so the fuel never runs out. -/
def utf8IgnoreAux : Nat → List Nat → List Char
  | 0, _ => []
  | _, [] => []
  | fuel + 1, b :: rest =>
    match utf8DecodeOne (b :: rest) with
    | some (cp, r) => Char.ofNat cp :: utf8IgnoreAux fuel r
    | none => utf8IgnoreAux fuel rest

/-- Permissive `bytes.decode('utf-8', errors='ignore')` on a byte list. -/
def pyDecodeUtf8Ignore (b : List Nat) : String :=
  String.mk (utf8IgnoreAux b.length b)

/-- Strict `bytes.decode('utf-8')`: `none` models `UnicodeDecodeError`. -/
def utf8StrictAux : Nat → List Nat → Option (List Char)
  | _, [] => some []
  | 0, _ :: _ => none
  | fuel + 1, b :: rest =>
    match utf8DecodeOne (b :: rest) with
    | some (cp, r) => (utf8StrictAux fuel r).map (Char.ofNat cp :: ·)
    | none => none

/-- Strict `bytes.decode('utf-8')` on a byte list. -/
def pyDecodeUtf8Strict (b : List Nat) : Option String :=
  (utf8StrictAux b.length b).map String.mk

/-! ## decode_mime_words (both analyzer classes, identical decoding logic) -/

/-- One `(part, encoding)` pair returned by `email.header.decode_header`:
either an undecoded `str` segment or a byte segment with an optionally
declared charset. -/
inductive HeaderSegment where
  | str : String → HeaderSegment
  | bytes : List Nat → Option String → HeaderSegment
deriving DecidableEq, Repr

/-- Model of `part.decode(encoding)` for a declared charset.  The model's charset table
covers UTF-8 (the charset exercised by the claims); a charset name outside
the table behaves like CPython's `LookupError` for an unknown charset.  In
both cases `none` models an exception propagating out of the unguarded
`part.decode(encoding)` call. -/
def pyStrictDecode (charset : String) (b : List Nat) : Option String :=
  if charset = "utf-8" || charset = "utf8" then pyDecodeUtf8Strict b else none

/-- The loop body of `decode_mime_words` over the decoded header segments:
`str` segments pass through, byte segments with a declared charset are
decoded strictly (an exception aborts the whole call — modelled by `none`),
byte segments without a charset are decoded as UTF-8 with errors ignored. -/
def decodeSegments : List HeaderSegment → Option (List String)
  | [] => some []
  | .str s :: rest => (decodeSegments rest).map (s :: ·)
  | .bytes b (some cs) :: rest =>
    match pyStrictDecode cs b with
    | some s => (decodeSegments rest).map (s :: ·)
    | none => none
  | .bytes b none :: rest =>
    (decodeSegments rest).map (pyDecodeUtf8Ignore b :: ·)

/-- Embedding of `decode_mime_words` (tencent_advisor_analyzer lines 641-654 and
email_daily_report lines 107-118): join of the decoded segments, `none`
when any strict per-segment decode raises. -/
def decode_mime_words (segs : List HeaderSegment) : Option String :=
  (decodeSegments segs).map (fun parts => String.join parts)

/-! ## HTMLTextExtractor (tencent_advisor_analyzer lines 27-66)

A model of the `html.parser.HTMLParser` tokenisation for plain tag/text
documents (no entity references, comments or doctypes — none occur in the
inputs considered): markup `<...>` spans alternate with data spans, tag
names run to the first whitespace or slash, attribute values are quoted. -/

/-- Whitespace for Python `str.strip()`. -/
def isPyWS (c : Char) : Bool :=
  c = ' ' || c = '\t' || c = '\n' || c = '\r' || c = '\x0b' || c = '\x0c'

/-- Python `str.strip()`. -/
def pyStrip (s : String) : String :=
  String.mk (((s.toList.dropWhile isPyWS).reverse.dropWhile isPyWS).reverse)

/-- The tag name: characters of the tag body up to whitespace or `/`. -/
def tagNameOf (tag : List Char) : String :=
  String.mk (tag.takeWhile (fun c => !(isPyWS c || c = '/')))

/-- Scan a tag body for a quoted `href=` attribute value (the form used by
`handle_starttag` via the parser's attribute scanner on the documents at
hand). -/
def findHrefAttr : Nat → List Char → Option String
  | 0, _ => none
  | _, [] => none
  | fuel + 1, c :: rest =>
    if "href=".toList.isPrefixOf (c :: rest) then
      match (c :: rest).drop 5 with
      | q :: r =>
        if q = '"' || q = '\'' then
          let v := r.takeWhile (fun x => x ≠ q)
          if v.length < r.length then some (String.mk v) else none
        else none
      | [] => none
    else findHrefAttr fuel rest

/-- Mutable state of `HTMLTextExtractor`. -/
structure HtmlState where
  texts : List String
  links : List String
  in_script : Bool
  in_style : Bool
deriving DecidableEq, Repr

/-- Process one start tag (`handle_starttag`): set the script/style flags,
collect the `href` of an anchor. -/
def htmlStartTag (st : HtmlState) (tag : List Char) : HtmlState :=
  let name := tagNameOf tag
  if name = "script" then { st with in_script := true }
  else if name = "style" then { st with in_style := true }
  else if name = "a" then
    match findHrefAttr tag.length tag with
    | some href => { st with links := st.links ++ [href] }
    | none => st
  else st

/-- Process one end tag (`handle_endtag`). -/
def htmlEndTag (st : HtmlState) (tag : List Char) : HtmlState :=
  let name := tagNameOf tag
  if name = "script" then { st with in_script := false }
  else if name = "style" then { st with in_style := false }
  else st

/-- The tokenisation walk: `handle_data` is fed the text between tags and
records its stripped form when non-empty and not inside `<script>`/`<style>`.
An unterminated `<` at the end of input stays buffered inside the parser and
produces nothing. -/
def htmlWalkAux : Nat → HtmlState → List Char → HtmlState
  | 0, st, _ => st
  | _, st, [] => st
  | fuel + 1, st, '<' :: rest =>
    let tag := rest.takeWhile (fun c => c ≠ '>')
    let after := rest.drop tag.length
    (match after with
     | _ :: r2 =>
       let st' :=
         match tag with
         | '/' :: nm => htmlEndTag st nm
         | _ => htmlStartTag st tag
       htmlWalkAux fuel st' r2
     | [] => st)
  | fuel + 1, st, c :: rest =>
    let chunk := (c :: rest).takeWhile (fun x => x ≠ '<')
    let after := (c :: rest).drop chunk.length
    let st' :=
      if st.in_script || st.in_style then st
      else
        let t := pyStrip (String.mk chunk)
        if t = "" then st else { st with texts := st.texts ++ [t] }
    htmlWalkAux fuel st' after

/-- Run `HTMLTextExtractor` over a document: `(get_text(), get_links())`,
where `get_text` joins the collected data chunks with single spaces. -/
def htmlExtract (html : String) : String × List String :=
  let st := htmlWalkAux html.length ⟨[], [], false, false⟩ html.toList
  (String.intercalate " " st.texts, st.links)

/-! ## parse_html_data — report links (tencent_advisor_analyzer lines 354-356)

`re.findall(r'href=["\'](https?://[^"\']+)["\']', html)` scanned left to
right; matches are non-overlapping and the captured group is the absolute
URL.  The source then computes `list(set(links))[:5]`: CPython set iteration
order depends on the randomised string hashes of the links, so only this
underlying pool (the findall result, in document order) is a deterministic
function of the document. -/

/-- A quote character (the regex's `["\']` class). -/
def isQuoteChar (c : Char) : Bool := c = '"' || c = '\''

/-- Drop an exact literal from the head of the character list. -/
def dropLit : List Char → List Char → Option (List Char)
  | [], l => some l
  | c :: cs, d :: ds => if c = d then dropLit cs ds else none
  | _ :: _, [] => none

/-- Try to match `href=["\'](https?://[^"\']+)["\']` at the head; return the
captured URL and the characters after the whole match. -/
def matchHrefAt (l : List Char) : Option (String × List Char) :=
  match dropLit "href=".toList l with
  | none => none
  | some l1 =>
    match l1 with
    | q :: l2 =>
      if isQuoteChar q then
        match dropLit "http".toList l2 with
        | none => none
        | some l3 =>
          let sl4 : String × List Char :=
            match l3 with
            | 's' :: l4 => ("https", l4)
            | _ => ("http", l3)
          match dropLit "://".toList sl4.2 with
          | none => none
          | some l5 =>
            let body := l5.takeWhile (fun c => !isQuoteChar c)
            match body, l5.drop body.length with
            | _ :: _, q2 :: l7 =>
              if isQuoteChar q2 then
                some (sl4.1 ++ "://" ++ String.mk body, l7)
              else none
            | _, _ => none
      else none
    | [] => none

/-- Left-to-right non-overlapping scan of the `findall`. -/
def findallHrefAux : Nat → List Char → List String
  | 0, _ => []
  | _, [] => []
  | fuel + 1, c :: rest =>
    match matchHrefAt (c :: rest) with
    | some (url, r) => url :: findallHrefAux fuel r
    | none => findallHrefAux fuel rest

/-- The document-order pool of absolute links from which
`data['report_links'] = list(set(links))[:5]` is drawn. -/
def findallHrefLinks (html : String) : List String :=
  findallHrefAux html.length html.toList

/-! ## extract_all_content (tencent_advisor_analyzer lines 185-253) -/

/-- One body part of a multipart message as seen by the walk:
`get_content_type()`, the stringified `Content-Disposition` header,
`get_payload(decode=True)` (`none` when the part has no decodable payload)
and `get_filename()`. -/
structure MimePart where
  contentType : String
  contentDisposition : String
  payload : Option (List Nat)
  filename : Option String
deriving DecidableEq, Repr

/-- Python's `\w` sanitisation of `save_attachment`:
`re.sub(r'[^\w\-\.]', '_', filename)` over ASCII. -/
def sanitizeFilename (fn : String) : String :=
  String.map (fun c =>
    if c.isAlphanum || c = '_' || c = '-' || c = '.' then c else '_') fn

/-- Embedding of `TencentAdvisorAnalyzer.save_attachment` (lines 255-295), reduced to its
observable result: the stored name `<email-id>_<sanitised-filename>` when the
part has a filename and a non-empty payload, `none` otherwise (the file-system
write itself is an external effect).  The filename field carries the already
header-decoded text. -/
def save_attachment (email_id : String) (p : MimePart) : Option String :=
  match p.filename with
  | none => none
  | some fn =>
    match p.payload with
    | some (_ :: _) => some (email_id ++ "_" ++ sanitizeFilename fn)
    | _ => none

/-- The content bundle built by `extract_all_content`.  `html_text` is a
`dict.get`-style optional key, set only when an HTML part was decoded.
`structured_links` stands for the deterministic document-order link pool
behind `structured_data['report_links']` (see `findallHrefLinks`); the other
`structured_data` fields (app id, metrics, alerts, recommendations) are not
touched by the claims under analysis and are omitted. -/
structure EmailContent where
  text : String
  html : String
  html_text : Option String
  links : List String
  attachments : List String
  structured_links : List String
deriving DecidableEq, Repr

/-- One iteration of the `for part in email_message.walk()` loop of
`extract_all_content`: attachments are saved; a `text/plain` payload is
decoded permissively and **assigned** to `content['text']`; a `text/html`
payload is decoded, tag-stripped into `html_text`, and its links collected.
Empty or missing payloads (`if text:` / `if html:` falsy) leave the bundle
unchanged. -/
def contentStep (email_id : String) (c : EmailContent) (p : MimePart) : EmailContent :=
  if pyIn "attachment" p.contentDisposition then
    match save_attachment email_id p with
    | some name => { c with attachments := c.attachments ++ [name] }
    | none => c
  else if p.contentType = "text/plain" then
    match p.payload with
    | some (b :: bs) => { c with text := pyDecodeUtf8Ignore (b :: bs) }
    | _ => c
  else if p.contentType = "text/html" then
    match p.payload with
    | some (b :: bs) =>
      let html := pyDecodeUtf8Ignore (b :: bs)
      let et := htmlExtract html
      { c with html := html
               html_text := some et.1
               links := et.2
               structured_links := findallHrefLinks html }
    | _ => c
  else c

/-- Embedding of `TencentAdvisorAnalyzer.extract_all_content` on a multipart message (the
`is_multipart()` branch, the one the claim quantifies over): fold the walk
over the parts, then apply the final fallback
`if not content['text'] and content.get('html_text'):`. -/
def extract_all_content (email_id : String) (parts : List MimePart) : EmailContent :=
  let c := parts.foldl (contentStep email_id) ⟨"", "", none, [], [], []⟩
  if c.text = "" then
    match c.html_text with
    | some ht => if ht = "" then c else { c with text := ht }
    | none => c
  else c

/-! ## Concrete inputs used by the individual claims -/

/-- UTF-8 bytes of an ASCII string. -/
def asciiBytes (s : String) : List Nat := s.toList.map Char.toNat

/-- A bare `text/plain` body part with the given ASCII text. -/
def plainPart (s : String) : MimePart := ⟨"text/plain", "", some (asciiBytes s), none⟩

/-- Scenario C subject (spec §8). -/
def subjC : String := "Urgent: Budget Decision Needed"

/-- Scenario C body (spec §8). -/
def bodyC : String := "Please approve the budget increase."

/-- The Scenario C message, with the importance computed by the pipeline. -/
def emailC : EmailMsg := ⟨subjC, bodyC, assess_importance subjC bodyC⟩

/-- A routine low-importance message for the aggregation counter check. -/
def emailLow : EmailMsg :=
  ⟨"Server maintenance note", "All systems nominal.",
   assess_importance "Server maintenance note" "All systems nominal."⟩

/-- Two parsed aggregates with distinct totals, for the history-log check. -/
def kd0 : KeyData := ⟨10, ⟨2, 3, 5⟩, ⟨0, 0, 0, 0⟩, []⟩

/-- Second aggregate for the history-log check. -/
def kd1 : KeyData := ⟨15, ⟨3, 8, 4⟩, ⟨0, 0, 0, 0⟩, []⟩

/-- A history ending with totals 20 then 19 (spec §8 Scenario B). -/
def histB : List DayData := [⟨20, []⟩, ⟨19, []⟩]

/-- A seven-entry history with pairwise-distinct keyword lists. -/
def hist7 : List DayData :=
  [⟨1, ["a"]⟩, ⟨2, ["b"]⟩, ⟨3, ["c"]⟩, ⟨4, ["d"]⟩, ⟨5, ["e"]⟩, ⟨6, ["f"]⟩, ⟨7, ["g"]⟩]

/-- An HTML document with two distinct absolute links, second domain sorting
before the first, so that document order is observable. -/
def htmlTwoLinks : String :=
  "<a href=\"https://b.example/x\">B</a> <a href=\"https://a.example/y\">A</a>"

/-- Two plain-text parts, `"A"` then `"B"`. -/
def twoPlainParts : List MimePart := [plainPart "A", plainPart "B"]

/-!
# Theorems
-/

/-- The rational emergence test coincides with the integer test
`3 * previous < 2 * recent` (used to evaluate the ℚ comparison, which the
kernel cannot reduce directly). -/
theorem isEmerging_nat (r p : Nat) :
    isEmerging r p = (decide (3 * p < 2 * r) && decide (2 ≤ r)) := by
  simp only [isEmerging]
  congr 1
  rw [decide_eq_decide, show (1.5 : ℚ) = 3 / 2 by norm_num]
  constructor
  · intro h
    have h2 : ((3 * p : ℕ) : ℚ) < ((2 * r : ℕ) : ℚ) := by push_cast; linarith
    exact_mod_cast h2
  · intro h
    have h2 : ((3 * p : ℕ) : ℚ) < ((2 * r : ℕ) : ℚ) := by exact_mod_cast h
    push_cast at h2
    linarith

/-- The rational decline test coincides with the integer test
`2 * recent < previous`. -/
theorem isDeclining_nat (r p : Nat) :
    isDeclining r p = (decide (2 * r < p) && decide (2 ≤ p)) := by
  simp only [isDeclining]
  congr 1
  rw [decide_eq_decide, show (0.5 : ℚ) = 1 / 2 by norm_num]
  constructor
  · intro h
    have h2 : ((2 * r : ℕ) : ℚ) < ((p : ℕ) : ℚ) := by push_cast; linarith
    exact_mod_cast h2
  · intro h
    have h2 : ((2 * r : ℕ) : ℚ) < ((p : ℕ) : ℚ) := by exact_mod_cast h
    push_cast at h2
    linarith

/-- Function-level form of `isEmerging_nat`, for rewriting under binders. -/
theorem isEmerging_natFun :
    @isEmerging = fun r p => decide (3 * p < 2 * r) && decide (2 ≤ r) :=
  funext fun r => funext fun p => isEmerging_nat r p

/-- Function-level form of `isDeclining_nat`, for rewriting under binders. -/
theorem isDeclining_natFun :
    @isDeclining = fun r p => decide (2 * r < p) && decide (2 ≤ p) :=
  funext fun r => funext fun p => isDeclining_nat r p

/-- C1: the claimed invariant `sum(counts_by_category.values()) == total_emails`
fails on `extract_key_data`.  At the one-message input `[emailLow]` the
aggregate has `total_emails = 1` and the importance counters do sum to `1`,
but the category counters, never incremented by the source, sum to `0`. -/
theorem extract_key_data_category_counters_stay_zero :
    (extract_key_data [emailLow]).total_emails = 1 ∧
    (extract_key_data [emailLow]).by_importance.high +
      (extract_key_data [emailLow]).by_importance.medium +
      (extract_key_data [emailLow]).by_importance.low = 1 ∧
    (extract_key_data [emailLow]).by_category.decisions +
      (extract_key_data [emailLow]).by_category.updates +
      (extract_key_data [emailLow]).by_category.alerts +
      (extract_key_data [emailLow]).by_category.general = 0 := by
  decide

/-- C2: `save_history` overwrites the history store with the single current
aggregate.  Starting from a stored log holding `kd0`, saving `kd1` leaves a
file from which a reader recovers only `[kd1]`, not `[kd0, kd1]` — every
prior aggregate is discarded. -/
theorem save_history_keeps_only_latest :
    read_history_aggregates (save_history (HistoryFile.stored [kd0]) kd1) = [kd1] ∧
    read_history_aggregates (save_history (HistoryFile.stored [kd0]) kd1) ≠ [kd0, kd1] := by
  decide

/-- C4: the deterministic part of the `report_links` computation evaluated at
a document with two distinct absolute links: the `findall` pool lists them in
document order, after which the source applies `list(set(links))[:5]`, whose
iteration order is CPython's hash-randomised set order rather than this
document order. -/
theorem findall_href_links_document_order :
    findallHrefLinks htmlTwoLinks = ["https://b.example/x", "https://a.example/y"] ∧
    ("https://b.example/x" : String) ≠ "https://a.example/y" := by
  decide

/-- C5 (counterexample): with two plain-text parts `"A"` then `"B"`, the
bundle's plain-text field holds only `"B"` — the second part's assignment
overwrites the first, so the text does not contain both parts' texts. -/
theorem extract_all_content_second_plain_overwrites :
    (extract_all_content "1" twoPlainParts).text = "B" ∧
    pyIn "A" (extract_all_content "1" twoPlainParts).text = false := by
  decide

/-- C6: `decode_mime_words` is not total.  A header segment whose declared
charset is UTF-8 but whose byte `0xFF` is not valid UTF-8 (the encoded word
`=?utf-8?B?/w==?=`) makes the unguarded `part.decode(encoding)` raise,
modelled by `none`; by contrast a segment with no declared charset is decoded
permissively, as the claim states. -/
theorem decode_mime_words_raises_on_bad_declared_charset :
    decode_mime_words [HeaderSegment.bytes [0xFF] (some "utf-8")] = none ∧
    decode_mime_words [HeaderSegment.bytes [0xFF] none] = some "" ∧
    decode_mime_words [HeaderSegment.str "Hello ", HeaderSegment.bytes [0xFF] none,
      HeaderSegment.str "!"] = some "Hello !" := by
  decide

/-- C8: the Scenario C message is assessed `"high"` by the counting policy
(at least two high-importance hits, among them `"urgent"` and `"budget"`) and
routed to `decisions` by `categorize_emails`; the alert keyword group also
matches, so landing in `decisions` witnesses that decision keywords are
checked first. -/
theorem scenario_c_decisions_and_high :
    assess_importance subjC bodyC = "high" ∧
    2 ≤ countHits high_importance_words (pyLower subjC) (pyLower bodyC) ∧
    (pyIn "urgent" (pyLower subjC) || pyIn "urgent" (pyLower bodyC)) = true ∧
    (pyIn "budget" (pyLower subjC) || pyIn "budget" (pyLower bodyC)) = true ∧
    anyKeyword alert_keywords (pyLower subjC) (pyLower bodyC) = true ∧
    categorize_emails [emailC] = ⟨[emailC], [], [], []⟩ := by
  decide

/-- C3 (counterexample): for a four-entry history and `days = 7`, the loop's
recent window is empty — the threshold `i >= days - 3` is applied to indices
of the truncated window — while the specification's "last 3 entries of the
range" would be the three `"k"` entries; the observable output classifies
`"k"` as declining (counts 0 recent / 4 previous) instead of emerging. -/
theorem keyword_window_short_history_counterexample :
    (recent_previous_keywords hist4 7).1 = [] ∧
    specRecentWindowKeywords hist4 7 = ["k", "k", "k"] ∧
    (recent_previous_keywords hist4 7).1 ≠ specRecentWindowKeywords hist4 7 ∧
    analyze_keyword_trends hist4 7 = [⟨"k", 0, 4, "declining"⟩] := by
  refine ⟨by decide, by decide, by decide, ?_⟩
  unfold analyze_keyword_trends
  rw [isEmerging_natFun, isDeclining_natFun]
  decide

/-- C9: emergence is monotone in the recent count.  If a keyword with recent
count `r` passes the emergence test of `analyze_keyword_trends`
(`recent_count > previous_count * 1.5 and recent_count >= 2`) for a fixed
previous count `p`, then every recent count `r2 ≥ r` passes it as well. -/
theorem isEmerging_monotone (r p r2 : Nat) (h : isEmerging r p = true)
    (hr : r ≤ r2) : isEmerging r2 p = true := by
  rw [isEmerging_nat] at h ⊢
  simp only [Bool.and_eq_true, decide_eq_true_eq] at h ⊢
  omega

/-- C9 witness: `r = 2`, `p = 1`, `r2 = 3`. -/
theorem isEmerging_monotone_witness :
    isEmerging 2 1 = true ∧ 2 ≤ 3 ∧ isEmerging 3 1 = true :=
  ⟨by rw [isEmerging_nat]; decide, by decide,
   isEmerging_monotone 2 1 3 (by rw [isEmerging_nat]; decide) (by decide)⟩

/-- C10: `categorize_emails` partitions its input — every message lands in
exactly one of the four category lists (first matching keyword group wins,
unmatched messages fall to `general`), so the four lengths sum to the input
length. -/
theorem categorize_emails_partition (emails : List EmailMsg) :
    (categorize_emails emails).decisions.length +
      (categorize_emails emails).updates.length +
      (categorize_emails emails).alerts.length +
      (categorize_emails emails).general.length = emails.length := by
  induction emails with
  | nil => rfl
  | cons e rest ih =>
    simp only [categorize_emails]
    split_ifs <;> simp [List.length_cons] <;> omega

/-- Closed form of the window loop of `analyze_keyword_trends`: starting at
index `i`, the entries before position `days - 3 - i` feed the previous
window and the rest feed the recent window, each in iteration order. -/
theorem splitKeywordsAux_eq (days : Nat) :
    ∀ (w : List DayData) (i : Nat),
      splitKeywordsAux days i w =
        (((w.drop (days - 3 - i)).map (fun d => d.keywords)).flatten,
         ((w.take (days - 3 - i)).map (fun d => d.keywords)).flatten)
  | [], i => by simp [splitKeywordsAux]
  | d :: rest, i => by
    simp only [splitKeywordsAux]
    by_cases h : (days : Int) - 3 ≤ (i : Int)
    · rw [if_pos h, splitKeywordsAux_eq days rest (i + 1)]
      have h0 : days - 3 - i = 0 := by omega
      have h1 : days - 3 - (i + 1) = 0 := by omega
      simp [h0, h1]
    · rw [if_neg h, splitKeywordsAux_eq days rest (i + 1)]
      have h1 : days - 3 - i = (days - 3 - (i + 1)) + 1 := by omega
      simp [h1]

/-- C3 (amended): when the history has at least `days` entries (and
`days ≥ 3`), the loop of `analyze_keyword_trends` does split the
`history[-days:]` window into a recent window of exactly the last 3 entries'
keywords and a previous window of all the other entries' keywords, in order;
for shorter histories the split index `days - 3` applies to the truncated
window instead (see the counterexample). -/
theorem keyword_windows_split_for_full_history (history : List DayData)
    (days : Nat) (h3 : 3 ≤ days) (hlen : days ≤ history.length) :
    (recent_previous_keywords history days).1 =
      (((pyLastSlice history days).drop ((pyLastSlice history days).length - 3)).map
        (fun d => d.keywords)).flatten ∧
    (recent_previous_keywords history days).2 =
      (((pyLastSlice history days).take ((pyLastSlice history days).length - 3)).map
        (fun d => d.keywords)).flatten := by
  have hwin : (pyLastSlice history days).length = days := by
    simp only [pyLastSlice]
    rw [if_neg (by omega : ¬ days = 0)]
    simp only [List.length_drop]
    omega
  unfold recent_previous_keywords
  rw [splitKeywordsAux_eq days (pyLastSlice history days) 0, hwin]
  constructor <;> simp

/-- C3 witness: a seven-entry history with `days = 7` — the recent window is
the keywords of the last three entries and the previous window those of the
first four. -/
theorem keyword_windows_split_witness :
    3 ≤ 7 ∧ 7 ≤ hist7.length ∧
    ((recent_previous_keywords hist7 7).1 =
      (((pyLastSlice hist7 7).drop ((pyLastSlice hist7 7).length - 3)).map
        (fun d => d.keywords)).flatten ∧
     (recent_previous_keywords hist7 7).2 =
      (((pyLastSlice hist7 7).take ((pyLastSlice hist7 7).length - 3)).map
        (fun d => d.keywords)).flatten) :=
  ⟨by decide, by decide,
   keyword_windows_split_for_full_history hist7 7 (by decide) (by decide)⟩

/-- C5 (amended): in `extract_all_content` each decodable `text/plain` part
**overwrites** the bundle's plain-text field, so the field ends up holding
the decoded text of the last such part — here stated for a part list ending
in a plain-text part with non-empty payload and non-empty permissive decode
(so the HTML fallback does not fire).  Per-part decoding uses
`errors='ignore'` and is total by construction. -/
theorem extract_all_content_last_plain_wins (email_id : String)
    (ps : List MimePart) (b : List Nat) (hb : b ≠ [])
    (hd : pyDecodeUtf8Ignore b ≠ "") :
    (extract_all_content email_id
      (ps ++ [⟨"text/plain", "", some b, none⟩])).text = pyDecodeUtf8Ignore b := by
  obtain ⟨b0, bs, rfl⟩ : ∃ b0 bs, b = b0 :: bs := by
    cases b with
    | nil => exact absurd rfl hb
    | cons b0 bs => exact ⟨b0, bs, rfl⟩
  simp only [extract_all_content, List.foldl_append, List.foldl_cons, List.foldl_nil]
  set c1 := ps.foldl (contentStep email_id) ⟨"", "", none, [], [], []⟩ with hc1
  have hstep : contentStep email_id c1 ⟨"text/plain", "", some (b0 :: bs), none⟩ =
      { c1 with text := pyDecodeUtf8Ignore (b0 :: bs) } := by
    simp only [contentStep]
    rw [if_neg (by decide : ¬ (pyIn "attachment" "" = true))]
    simp
  rw [hstep]
  have htext : ({ c1 with text := pyDecodeUtf8Ignore (b0 :: bs) } : EmailContent).text =
      pyDecodeUtf8Ignore (b0 :: bs) := rfl
  rw [htext, if_neg hd]

/-- C5 witness: a single plain-text part with payload byte 66 (`"B"`). -/
theorem extract_all_content_last_plain_wins_witness :
    ([66] : List Nat) ≠ [] ∧ pyDecodeUtf8Ignore [66] ≠ "" ∧
    (extract_all_content "1" ([] ++ [⟨"text/plain", "", some [66], none⟩])).text =
      pyDecodeUtf8Ignore [66] :=
  ⟨by decide, by decide,
   extract_all_content_last_plain_wins "1" [] [66] (by decide) (by decide)⟩

/-- Indexing helper: an entry of the mapped totals of a dropped suffix is the
corresponding entry of the original history. -/
theorem getD_total_map_drop (l : List DayData) (k i : Nat) (h : k + i < l.length) :
    ((l.drop k).map (fun d => d.total_emails)).getD i 0 =
      (l.getD (k + i) default).total_emails := by
  have h1 : i < ((l.drop k).map (fun d => d.total_emails)).length := by
    simp
    omega
  rw [List.getD_eq_getElem?_getD, List.getElem?_eq_getElem h1,
    List.getD_eq_getElem?_getD, List.getElem?_eq_getElem h]
  simp [List.getElem_drop]

/-- C7: for any history of length at least 2 and window of at least 2,
`analyze_volume_trend` computes its change rate from the last two
total-email counts of the history — `(latest - previous)/previous * 100`
when `previous > 0` and `0` otherwise — and assigns the label by the band
chain `|rate| < 5 → stable`, `rate > 20 → significantly_increasing`,
`rate > 5 → increasing`, `rate < -20 → significantly_decreasing`, else
`decreasing`, in that order. -/
theorem analyze_volume_trend_last_two (history : List DayData) (days : Nat)
    (h2 : 2 ≤ history.length) (hdays : 2 ≤ days) :
    ((analyze_volume_trend history days).change_rate =
      (if 0 < (history.getD (history.length - 2) default).total_emails then
        ((((history.getD (history.length - 1) default).total_emails : ℚ) -
          ((history.getD (history.length - 2) default).total_emails : ℚ)) /
          ((history.getD (history.length - 2) default).total_emails : ℚ)) * 100
       else 0)) ∧
    ((analyze_volume_trend history days).trend =
      (if |(analyze_volume_trend history days).change_rate| < 5 then "stable"
       else if 20 < (analyze_volume_trend history days).change_rate then
         "significantly_increasing"
       else if 5 < (analyze_volume_trend history days).change_rate then "increasing"
       else if (analyze_volume_trend history days).change_rate < -20 then
         "significantly_decreasing"
       else "decreasing")) := by
  have hn : ¬ history.length < 2 := by omega
  have hps : pyLastSlice history days = history.drop (history.length - days) := by
    simp only [pyLastSlice]
    rw [if_neg (by omega : ¬ days = 0)]
  have hmlen : ((history.drop (history.length - days)).map
      (fun d => d.total_emails)).length = history.length - (history.length - days) := by
    simp
  have hb1 : (history.length - days) +
      (history.length - (history.length - days) - 1) < history.length := by omega
  have hb2 : (history.length - days) +
      (history.length - (history.length - days) - 2) < history.length := by omega
  have e1 := getD_total_map_drop history (history.length - days)
    (history.length - (history.length - days) - 1) hb1
  rw [show (history.length - days) + (history.length - (history.length - days) - 1)
      = history.length - 1 from by omega] at e1
  have e2 := getD_total_map_drop history (history.length - days)
    (history.length - (history.length - days) - 2) hb2
  rw [show (history.length - days) + (history.length - (history.length - days) - 2)
      = history.length - 2 from by omega] at e2
  have hnot : ¬ ((history.drop (history.length - days)).map
      (fun d => d.total_emails)).length < 2 := by
    rw [hmlen]; omega
  constructor
  · simp only [analyze_volume_trend, hps]
    rw [if_neg hn, if_neg hnot, hmlen, e1, e2]
  · simp only [analyze_volume_trend, hps]
    rw [if_neg hn, if_neg hnot, hmlen, e1, e2]

/-- C7 witness (spec §8 Scenario B): for a history ending with totals 20 then
19, the change rate is exactly −5 and the label is `"decreasing"` — not
`"stable"`, because `|-5| < 5` fails at the boundary. -/
theorem analyze_volume_trend_scenario_b :
    2 ≤ histB.length ∧ 2 ≤ 7 ∧
    (analyze_volume_trend histB 7).change_rate = -5 ∧
    (analyze_volume_trend histB 7).trend = "decreasing" ∧
    ("decreasing" : String) ≠ "stable" := by
  have h := analyze_volume_trend_last_two histB 7 (by decide) (by decide)
  have hrate : (analyze_volume_trend histB 7).change_rate = -5 := by
    rw [h.1]
    norm_num [histB]
  refine ⟨by decide, by decide, hrate, ?_, by decide⟩
  rw [h.2, hrate]
  norm_num
